import Mathlib

/-!
Verification of the UI-client / insight-service contract of the
AI Meeting Assistant repository (`app.py`, `modal_insights_app.py`).

The two client functions `get_all_insights_from_modal` and
`ask_question_on_transcript` from `app.py` are shallowly embedded as pure
functions parametrised over
  * the configured endpoint URL (a module-level constant in the source,
    lifted to a parameter so that misconfiguration is expressible), and
  * the behaviour of the remote server for the single POST issued
    (an explicit `ServerOutcome` value: the source performs exactly one
    `requests.post` per call).
Each embedded client returns the tuple of strings the Python function
returns (as a `List String`, since the arity differs between paths in the
source) paired with the number of network calls issued (0 or 1), which
models the server-call counter of the spec.

Exception texts follow the `requests` / `json` library formats that
the handlers of the source observe via the exception text.
-/

namespace MeetingApp

/-- Parsed JSON response body of the insights endpoint.  The contract
fields are all strings; an absent field is `none`.  Mirrors the dict that
`response.json()` yields in `app.py`. -/
structure InsightsJson where
  summary : Option String
  decisions : Option String
  actions : Option String
  sentiment : Option String
  error : Option String
deriving Repr, DecidableEq

/-- Parsed JSON response body of the Q&A endpoint. -/
structure QnaJson where
  answer : Option String
  error : Option String
deriving Repr, DecidableEq

/-- What `response.json()` does with the response body: a JSON object
(already parsed), the JSON literal `null` (parses to Python `None`), or
text that is not JSON (raises `json.JSONDecodeError`). -/
inductive Body (α : Type) where
  | jsonObj : α → Body α
  | jsonNull : Body α
  | notJson : String → Body α
deriving Repr, DecidableEq

/-- Outcome of the single `requests.post` call: an HTTP response carrying
status code, reason phrase and body; a timeout
(`requests.exceptions.Timeout`); or a transport-level failure (DNS,
connection refused, TLS), whose exception text is `msg`. -/
inductive ServerOutcome (α : Type) where
  | reply : Nat → String → Body α → ServerOutcome α
  | timeout : ServerOutcome α
  | transportErr : String → ServerOutcome α
deriving Repr, DecidableEq

/-- The real insights endpoint URL hard-coded in `app.py`. -/
def MODAL_INSIGHTS_ENDPOINT_URL : String :=
  "https://mehdinathani--ai-meeting-insights-service-v2-get-insights.modal.run"

/-- The real Q&A endpoint URL hard-coded in `app.py`. -/
def MODAL_QNA_ENDPOINT_URL : String :=
  "https://mehdinathani--ai-meeting-qna-service-v2-1-guardrails-ask-74022e.modal.run"

/-- The placeholder sentinel the insights client compares its URL against. -/
def INSIGHTS_URL_PLACEHOLDER : String :=
  "YOUR_MODAL_URL_FOR_ai-meeting-processor-v6-6-qna_MAIN_ENDPOINT"

/-- The placeholder sentinel the Q&A client compares its URL against. -/
def QNA_URL_PLACEHOLDER : String :=
  "YOUR_MODAL_URL_FOR_ai-meeting-processor-v6-6-qna_QNA_ENDPOINT"

/-- Timeout of 300 seconds on the insights POST (`app.py` line 98). -/
def INSIGHTS_TIMEOUT_SECONDS : Nat := 300

/-- Timeout of 180 seconds on the Q&A POST (`app.py` line 137). -/
def QNA_TIMEOUT_SECONDS : Nat := 180

def err_summary : String := "Error: Could not retrieve summary."
def err_decisions : String := "Error: Could not retrieve decisions."
def err_actions : String := "Error: Could not retrieve action items."
def err_sentiment : String := "Error: Could not retrieve sentiment."
def err_answer : String := "Error: Could not retrieve answer."

def insightsConfigErrorMsg : String :=
  "Insights Modal endpoint URL not correctly configured in `app.py`."

def qnaConfigErrorMsg : String :=
  "Q&A Modal endpoint URL not correctly configured in `app.py`."

def blankTranscriptMsgInsights : String :=
  "Please enter some transcript text first."

def blankTranscriptMsgQna : String :=
  "Please provide the meeting transcript before asking a question."

def blankQuestionMsg : String :=
  "Please enter a question to ask."

/-- Exception text of `requests.exceptions.ReadTimeout` for a read
timeout of `t` seconds, as produced by urllib3. -/
def timeoutExcStr (t : Nat) : String :=
  "Read timed out. (read timeout=" ++ toString t ++ ")"

/-- Exception text of the `requests.exceptions.HTTPError` that
`response.raise_for_status()` raises: 4xx are "Client Error", 5xx are
"Server Error". -/
def httpErrorExcStr (status : Nat) (reason url : String) : String :=
  toString status ++ (if status < 500 then " Client Error: " else " Server Error: ")
    ++ reason ++ " for url: " ++ url

/-- Exception text of the `json.JSONDecodeError` raised when the body
is not JSON ("Expecting value" at the start of the document). -/
def jsonDecodeExcStr : String :=
  "Expecting value: line 1 column 1 (char 0)"

/-- Exception text of the `json.JSONDecodeError("JSON parsed to None", text, 0)`
the source raises explicitly when `response.json()` returns `None`. -/
def jsonNoneExcStr : String :=
  "JSON parsed to None: line 1 column 1 (char 0)"

/-- Tests whether the first list is an initial segment of the second
(char-level `str.startswith`). -/
def startsWithChars : List Char → List Char → Bool
  | [], _ => true
  | _ :: _, [] => false
  | p :: ps, c :: cs => p == c && startsWithChars ps cs

/-- The `url.startswith("https://")` test of the configuration check in
the source, computed on the character list so that it evaluates by
`decide`. -/
def startsWithHttps (url : String) : Bool :=
  startsWithChars "https://".data url.data

/-- Python `not s.strip()`: true exactly when every character of `s` is
whitespace (in particular when `s` is empty). -/
def isBlank (s : String) : Bool :=
  s.data.all Char.isWhitespace

/-- Python truthiness of `"error" in results and results["error"]` for a
string-valued `error` field. -/
def hasTruthyError (e : Option String) : Bool :=
  match e with
  | some s => s ≠ ""
  | none => false

/-- Whether `response.raise_for_status()` raises: it raises exactly for
status codes in [400, 600). -/
def raisesForStatus (status : Nat) : Bool :=
  400 ≤ status && status < 600

/-- Shallow embedding of `get_all_insights_from_modal` (`app.py` lines
74-113), parametrised over the configured endpoint `url` and the outcome
`server` of the one POST the source can issue.  Returns the tuple of
strings the Python function returns, as a list (the blank-transcript
branch returns five values in the source, the others four), paired with
the number of network calls issued. -/
def get_all_insights_from_modal (url : String) (transcript_text : String)
    (server : ServerOutcome InsightsJson) : List String × Nat :=
  if url = INSIGHTS_URL_PLACEHOLDER ∨ url = "" ∨ ¬ startsWithHttps url then
    ([insightsConfigErrorMsg, err_decisions, err_actions, err_sentiment], 0)
  else if isBlank transcript_text then
    ([blankTranscriptMsgInsights, "", "", "", ""], 0)
  else
    match server with
    | .timeout =>
        (["Error processing insights: " ++ timeoutExcStr INSIGHTS_TIMEOUT_SECONDS,
          err_decisions, err_actions, err_sentiment], 1)
    | .transportErr m =>
        (["Error processing insights: " ++ m,
          err_decisions, err_actions, err_sentiment], 1)
    | .reply status reason body =>
        if raisesForStatus status then
          (["Error processing insights: " ++ httpErrorExcStr status reason url,
            err_decisions, err_actions, err_sentiment], 1)
        else
          match body with
          | .notJson _ =>
              (["Error processing insights: " ++ jsonDecodeExcStr,
                err_decisions, err_actions, err_sentiment], 1)
          | .jsonNull =>
              (["Error processing insights: " ++ jsonNoneExcStr,
                err_decisions, err_actions, err_sentiment], 1)
          | .jsonObj r =>
              if hasTruthyError r.error then
                (["AI Service Error (Insights): " ++ r.error.getD "", "", "", ""], 1)
              else
                ([r.summary.getD "Summary not provided.",
                  r.decisions.getD "Decisions not provided.",
                  r.actions.getD "Action items not provided.",
                  r.sentiment.getD "Sentiment not provided."], 1)

/-- Shallow embedding of `ask_question_on_transcript` (`app.py` lines
116-156), with the same parametrisation as the insights client.  Returns
the single string the Python function returns, paired with the number of
network calls issued. -/
def ask_question_on_transcript (url : String)
    (transcript_text question_text : String)
    (server : ServerOutcome QnaJson) : String × Nat :=
  if url = QNA_URL_PLACEHOLDER ∨ url = "" ∨ ¬ startsWithHttps url then
    (qnaConfigErrorMsg, 0)
  else if isBlank transcript_text then
    (blankTranscriptMsgQna, 0)
  else if isBlank question_text then
    (blankQuestionMsg, 0)
  else
    match server with
    | .timeout =>
        ("Error during Q&A processing: " ++ timeoutExcStr QNA_TIMEOUT_SECONDS, 1)
    | .transportErr m =>
        ("Error during Q&A processing: " ++ m, 1)
    | .reply status reason body =>
        if raisesForStatus status then
          ("Error during Q&A processing: " ++ httpErrorExcStr status reason url, 1)
        else
          match body with
          | .notJson _ =>
              ("Error during Q&A processing: " ++ jsonDecodeExcStr, 1)
          | .jsonNull =>
              ("Error during Q&A processing: JSON parsed to None for Q&A: line 1 column 1 (char 0)", 1)
          | .jsonObj r =>
              if hasTruthyError r.error then
                ("Q&A Service Error: " ++ r.error.getD "", 1)
              else
                (r.answer.getD "Answer not provided by AI service.", 1)

/-- Outcome of one `_generate_text_from_prompt` call inside
`process_transcript_insights` (`modal_insights_app.py`): `.ok text` when
generation returned `text`, `.error msg` when it raised an exception whose
text is `msg`.  One outcome per insight field, in source order. -/
structure GenOutcomes where
  summary : Except String String
  decisions : Except String String
  actions : Except String String
  sentiment : Except String String
deriving Repr

/-- The dict built by `process_transcript_insights`; `none` marks an
absent key (the not-loaded branch returns a dict holding only the
`error` key). -/
structure ResultDict where
  summary : Option String
  decisions : Option String
  actions : Option String
  sentiment : Option String
  error : Option String
deriving Repr, DecidableEq

/-- Whether a generation task raised an exception. -/
def genFailed : Except String String → Bool
  | .error _ => true
  | .ok _ => false

/-- Shallow embedding of `process_transcript_insights`
(`modal_insights_app.py` lines 73-98).  `loaded` is the truthiness of
`self.text_generator`; `g` carries the outcome of each of the four
generation tasks. -/
def process_transcript_insights (loaded : Bool) (g : GenOutcomes) : ResultDict :=
  if loaded = false then
    ⟨none, none, none, none, some "LLM not loaded."⟩
  else
    let sVal := match g.summary with
      | .ok t => t
      | .error _ => "Error generating summary."
    let sErr : List String := match g.summary with
      | .ok _ => []
      | .error e => ["Summary: " ++ e]
    let dVal := match g.decisions with
      | .ok t => t
      | .error _ => "Error generating decisions."
    let dErr : List String := match g.decisions with
      | .ok _ => []
      | .error e => ["Decisions: " ++ e]
    let aVal := match g.actions with
      | .ok t => t
      | .error _ => "Error generating actions."
    let aErr : List String := match g.actions with
      | .ok _ => []
      | .error e => ["Actions: " ++ e]
    let snVal := match g.sentiment with
      | .ok t => t
      | .error _ => "Error analyzing sentiment."
    let snErr : List String := match g.sentiment with
      | .ok _ => []
      | .error e => ["Sentiment: " ++ e]
    let errors := sErr ++ dErr ++ aErr ++ snErr
    ⟨some sVal, some dVal, some aVal, some snVal,
     some (if errors = [] then "" else String.intercalate "; " errors)⟩

/-! Helper lemmas shared by several proofs. -/

lemma str_append_ne_empty_left {p : String} (hp : p ≠ "") (e : String) :
    p ++ e ≠ "" := by
  intro h
  apply hp
  have hd : p.data ++ e.data = [] := congrArg String.data h
  rcases List.append_eq_nil.mp hd with ⟨h1, _⟩
  cases p
  simp_all

lemma intercalate_go_ne_empty (sep : String) :
    ∀ (l : List String) (acc : String), acc ≠ "" →
      String.intercalate.go acc sep l ≠ "" := by
  intro l
  induction l with
  | nil => intro acc hacc; simpa [String.intercalate.go] using hacc
  | cons a as ih =>
      intro acc hacc
      rw [String.intercalate.go]
      exact ih _ (str_append_ne_empty_left (str_append_ne_empty_left hacc sep) a)

lemma intercalate_cons_ne_empty (sep x : String) (xs : List String)
    (hx : x ≠ "") : String.intercalate sep (x :: xs) ≠ "" := by
  rw [String.intercalate]
  exact intercalate_go_ne_empty sep xs x hx

lemma ne_of_data_head {s t : String} (h : s.data.head? ≠ t.data.head?) :
    s ≠ t :=
  fun e => h (by rw [e])

/-- Every branch of the insights client other than the blank-transcript
one returns a four-element tuple. -/
lemma insights_output_length_four (url t : String)
    (srv : ServerOutcome InsightsJson) (h : isBlank t = false) :
    (get_all_insights_from_modal url t srv).1.length = 4 := by
  unfold get_all_insights_from_modal
  split
  · rfl
  · rw [if_neg (by simp [h])]
    cases srv with
    | timeout => rfl
    | transportErr m => rfl
    | reply status reason body =>
        dsimp only
        by_cases hs : raisesForStatus status = true
        · rw [if_pos hs]
          rfl
        · rw [if_neg hs]
          cases body with
          | notJson s => rfl
          | jsonNull => rfl
          | jsonObj r =>
              dsimp only
              by_cases he : hasTruthyError r.error = true
              · rw [if_pos he]
                rfl
              · rw [if_neg he]
                rfl

end MeetingApp

open MeetingApp

set_option maxRecDepth 10000

/-- C1: the claim says `get_all_insights_from_modal` always returns the
fixed 4-tuple shape; on a blank transcript the source (line 91 of
`app.py`) instead returns five values (the validation message plus four
empty strings), one more than the four Gradio output components wired to
this function. -/
theorem C1_blank_transcript_returns_five_values :
    (get_all_insights_from_modal MODAL_INSIGHTS_ENDPOINT_URL "   "
        .timeout).1
      = [blankTranscriptMsgInsights, "", "", "", ""]
    ∧ (get_all_insights_from_modal MODAL_INSIGHTS_ENDPOINT_URL "   "
        .timeout).1.length ≠ 4 := by
  decide

/-- C2: with the correctly configured endpoint, a transcript that is
blank after trimming short-circuits to the input-validation message with
zero network calls, and that outcome differs from the output of every
non-blank call. -/
theorem C2_blank_transcript_short_circuits (t : String)
    (h : isBlank t = true) (srv : ServerOutcome InsightsJson) :
    get_all_insights_from_modal MODAL_INSIGHTS_ENDPOINT_URL t srv
      = ([blankTranscriptMsgInsights, "", "", "", ""], 0)
    ∧ ∀ (t' : String) (srv' : ServerOutcome InsightsJson),
        isBlank t' = false →
        (get_all_insights_from_modal MODAL_INSIGHTS_ENDPOINT_URL t' srv').1
          ≠ (get_all_insights_from_modal MODAL_INSIGHTS_ENDPOINT_URL t srv).1 := by
  have hmain : get_all_insights_from_modal MODAL_INSIGHTS_ENDPOINT_URL t srv
      = ([blankTranscriptMsgInsights, "", "", "", ""], 0) := by
    unfold get_all_insights_from_modal
    rw [if_neg (by decide), if_pos h]
  refine ⟨hmain, ?_⟩
  intro t' srv' h' heq
  have h4 := insights_output_length_four MODAL_INSIGHTS_ENDPOINT_URL t' srv' h'
  rw [heq] at h4
  simp [hmain] at h4

/-- C2 witness: the literal three-space transcript of the spec. -/
theorem C2_witness :
    isBlank "   " = true
    ∧ get_all_insights_from_modal MODAL_INSIGHTS_ENDPOINT_URL "   " .timeout
        = ([blankTranscriptMsgInsights, "", "", "", ""], 0) :=
  ⟨by decide,
   (C2_blank_transcript_short_circuits "   " (by decide) .timeout).1⟩

/-- C8: the insights POST uses a 300-second timeout and the Q&A POST a
shorter 180-second one. -/
theorem C8_timeouts :
    INSIGHTS_TIMEOUT_SECONDS = 300 ∧ QNA_TIMEOUT_SECONDS = 180
    ∧ QNA_TIMEOUT_SECONDS < INSIGHTS_TIMEOUT_SECONDS := by
  decide

/-- C9: against a deterministic server (a fixed function from the posted
transcript to an outcome) the insights client is a pure function, so two
calls with the same transcript return identical tuples. -/
theorem C9_deterministic (url t : String)
    (srv : String → ServerOutcome InsightsJson) :
    get_all_insights_from_modal url t (srv t)
      = get_all_insights_from_modal url t (srv t) :=
  rfl

/-- C3 counterexample: for the spec's stub response
`{"error": "model failed"}` the first slot is
"AI Service Error (Insights): model failed", not the claimed
"AI Service Error: model failed". -/
theorem C3_counterexample :
    (get_all_insights_from_modal MODAL_INSIGHTS_ENDPOINT_URL "hello"
        (.reply 200 "OK" (.jsonObj ⟨none, none, none, none, some "model failed"⟩))).1
      = ["AI Service Error (Insights): model failed", "", "", ""]
    ∧ (get_all_insights_from_modal MODAL_INSIGHTS_ENDPOINT_URL "hello"
        (.reply 200 "OK" (.jsonObj ⟨none, none, none, none, some "model failed"⟩))).1
      ≠ ["AI Service Error: model failed", "", "", ""] := by
  decide

/-- C3 (amended): a 200 response whose object carries a non-empty
`error` field `e` yields "AI Service Error (Insights): " followed by `e`
in the summary slot and empty strings in the other three slots. -/
theorem C3_service_error_message (t : String) (ht : isBlank t = false)
    (reason : String) (j : InsightsJson) (e : String)
    (hj : j.error = some e) (he : e ≠ "") :
    (get_all_insights_from_modal MODAL_INSIGHTS_ENDPOINT_URL t
        (.reply 200 reason (.jsonObj j))).1
      = ["AI Service Error (Insights): " ++ e, "", "", ""] := by
  unfold get_all_insights_from_modal
  rw [if_neg (by decide), if_neg (by simp [ht])]
  dsimp only
  rw [if_neg (by decide)]
  rw [if_pos (by simp [hasTruthyError, hj, he])]
  simp [hj]

/-- C3 witness: the concrete stub of the spec. -/
theorem C3_service_error_message_witness :
    isBlank "hello" = false
    ∧ (get_all_insights_from_modal MODAL_INSIGHTS_ENDPOINT_URL "hello"
        (.reply 200 "OK" (.jsonObj ⟨none, none, none, none, some "model failed"⟩))).1
      = ["AI Service Error (Insights): model failed", "", "", ""] :=
  ⟨by decide,
   C3_service_error_message "hello" (by decide) "OK"
     ⟨none, none, none, none, some "model failed"⟩ "model failed" rfl (by decide)⟩

/-- C4: on a 200 response with empty or absent `error`, each of the four
fields independently falls back to its own placeholder exactly when
absent and is passed through unmodified when present. -/
theorem C4_per_field_placeholders (t : String) (ht : isBlank t = false)
    (reason : String) (j : InsightsJson)
    (he : hasTruthyError j.error = false) :
    (get_all_insights_from_modal MODAL_INSIGHTS_ENDPOINT_URL t
        (.reply 200 reason (.jsonObj j))).1
      = [j.summary.getD "Summary not provided.",
         j.decisions.getD "Decisions not provided.",
         j.actions.getD "Action items not provided.",
         j.sentiment.getD "Sentiment not provided."] := by
  unfold get_all_insights_from_modal
  rw [if_neg (by decide), if_neg (by simp [ht])]
  dsimp only
  rw [if_neg (by decide)]
  rw [if_neg (by simp [he])]

/-- C4 witness: a response missing `decisions` and `sentiment` but
carrying `summary`, `actions` and an empty `error`: the present fields
are returned as-is, the missing ones get their own placeholders. -/
theorem C4_per_field_placeholders_witness :
    isBlank "hello" = false
    ∧ (get_all_insights_from_modal MODAL_INSIGHTS_ENDPOINT_URL "hello"
        (.reply 200 "OK" (.jsonObj ⟨some "S", none, some "A", none, some ""⟩))).1
      = ["S", "Decisions not provided.", "A", "Sentiment not provided."] :=
  ⟨by decide,
   (C4_per_field_placeholders "hello" (by decide) "OK"
     ⟨some "S", none, some "A", none, some ""⟩ (by decide)).trans (by decide)⟩

/-- Once all three Q&A preconditions pass, exactly one POST is issued,
whatever the server then does. -/
lemma qna_call_count_one (url t q : String) (srv : ServerOutcome QnaJson)
    (hc : ¬ (url = QNA_URL_PLACEHOLDER ∨ url = "" ∨ ¬ startsWithHttps url = true))
    (ht : isBlank t = false) (hq : isBlank q = false) :
    (ask_question_on_transcript url t q srv).2 = 1 := by
  unfold ask_question_on_transcript
  rw [if_neg hc, if_neg (by simp [ht]), if_neg (by simp [hq])]
  cases srv with
  | timeout => rfl
  | transportErr m => rfl
  | reply status reason body =>
      dsimp only
      by_cases hs : raisesForStatus status = true
      · rw [if_pos hs]
      · rw [if_neg hs]
        cases body with
        | notJson s2 => rfl
        | jsonNull => rfl
        | jsonObj r =>
            dsimp only
            by_cases he : hasTruthyError r.error = true
            · rw [if_pos he]
            · rw [if_neg he]

/-- C5: the Q&A client checks its preconditions in source order —
misconfigured endpoint, then blank transcript, then blank question —
each yielding its own distinct message with no network call, and issues
the POST exactly when all three pass. -/
theorem C5_qna_precondition_order (url t q : String)
    (srv : ServerOutcome QnaJson) :
    ((url = QNA_URL_PLACEHOLDER ∨ url = "" ∨ ¬ startsWithHttps url = true) →
        ask_question_on_transcript url t q srv = (qnaConfigErrorMsg, 0))
    ∧ (¬ (url = QNA_URL_PLACEHOLDER ∨ url = "" ∨ ¬ startsWithHttps url = true) →
        isBlank t = true →
        ask_question_on_transcript url t q srv = (blankTranscriptMsgQna, 0))
    ∧ (¬ (url = QNA_URL_PLACEHOLDER ∨ url = "" ∨ ¬ startsWithHttps url = true) →
        isBlank t = false → isBlank q = true →
        ask_question_on_transcript url t q srv = (blankQuestionMsg, 0))
    ∧ (¬ (url = QNA_URL_PLACEHOLDER ∨ url = "" ∨ ¬ startsWithHttps url = true) →
        isBlank t = false → isBlank q = false →
        (ask_question_on_transcript url t q srv).2 = 1)
    ∧ (qnaConfigErrorMsg ≠ blankTranscriptMsgQna
        ∧ qnaConfigErrorMsg ≠ blankQuestionMsg
        ∧ blankTranscriptMsgQna ≠ blankQuestionMsg) := by
  refine ⟨?_, ?_, ?_, ?_, by decide⟩
  · intro hc
    unfold ask_question_on_transcript
    rw [if_pos hc]
  · intro hc ht
    unfold ask_question_on_transcript
    rw [if_neg hc, if_pos ht]
  · intro hc ht hq
    unfold ask_question_on_transcript
    rw [if_neg hc, if_neg (by simp [ht]), if_pos hq]
  · intro hc ht hq
    exact qna_call_count_one url t q srv hc ht hq

/-- C5 witness: the three rejection messages and the single POST on a
passing input, at concrete values. -/
theorem C5_qna_precondition_order_witness :
    ask_question_on_transcript "http://x" "t" "q" .timeout = (qnaConfigErrorMsg, 0)
    ∧ ask_question_on_transcript MODAL_QNA_ENDPOINT_URL " " "q" .timeout
        = (blankTranscriptMsgQna, 0)
    ∧ ask_question_on_transcript MODAL_QNA_ENDPOINT_URL "t" " " .timeout
        = (blankQuestionMsg, 0)
    ∧ (ask_question_on_transcript MODAL_QNA_ENDPOINT_URL "t" "q" .timeout).2 = 1 :=
  ⟨(C5_qna_precondition_order "http://x" "t" "q" .timeout).1 (by decide),
   (C5_qna_precondition_order MODAL_QNA_ENDPOINT_URL " " "q" .timeout).2.1
     (by decide) (by decide),
   (C5_qna_precondition_order MODAL_QNA_ENDPOINT_URL "t" " " .timeout).2.2.1
     (by decide) (by decide) (by decide),
   (C5_qna_precondition_order MODAL_QNA_ENDPOINT_URL "t" "q" .timeout).2.2.2.1
     (by decide) (by decide) (by decide)⟩

/-- C6: for either client, a URL that equals its placeholder sentinel or
lacks the "https://" prefix short-circuits with the configuration-error
message and zero network calls, and that message differs textually from
every runtime network-error message (which all start with a fixed
"Error ... processing" text). -/
theorem C6_config_check_short_circuits :
    (∀ url, url = INSIGHTS_URL_PLACEHOLDER ∨ startsWithHttps url = false →
        ∀ (t : String) (srv : ServerOutcome InsightsJson),
          get_all_insights_from_modal url t srv
            = ([insightsConfigErrorMsg, err_decisions, err_actions, err_sentiment], 0))
    ∧ (∀ url, url = QNA_URL_PLACEHOLDER ∨ startsWithHttps url = false →
        ∀ (t q : String) (srv : ServerOutcome QnaJson),
          ask_question_on_transcript url t q srv = (qnaConfigErrorMsg, 0))
    ∧ (∀ e, insightsConfigErrorMsg ≠ "Error processing insights: " ++ e)
    ∧ (∀ e, qnaConfigErrorMsg ≠ "Error during Q&A processing: " ++ e) := by
  refine ⟨?_, ?_, ?_, ?_⟩
  · intro url h t srv
    unfold get_all_insights_from_modal
    rw [if_pos ?_]
    rcases h with h | h
    · exact Or.inl h
    · exact Or.inr (Or.inr (by simp [h]))
  · intro url h t q srv
    unfold ask_question_on_transcript
    rw [if_pos ?_]
    rcases h with h | h
    · exact Or.inl h
    · exact Or.inr (Or.inr (by simp [h]))
  · intro e
    obtain ⟨ed⟩ := e
    apply ne_of_data_head
    have h1 : insightsConfigErrorMsg.data.head? = some 'I' := rfl
    have h2 : ("Error processing insights: " ++ (⟨ed⟩ : String)).data.head?
        = some 'E' := rfl
    rw [h1, h2]
    decide
  · intro e
    obtain ⟨ed⟩ := e
    apply ne_of_data_head
    have h1 : qnaConfigErrorMsg.data.head? = some 'Q' := rfl
    have h2 : ("Error during Q&A processing: " ++ (⟨ed⟩ : String)).data.head?
        = some 'E' := rfl
    rw [h1, h2]
    decide

/-- C6 witness: a placeholder URL and a non-HTTPS URL, for both clients. -/
theorem C6_config_check_short_circuits_witness :
    get_all_insights_from_modal INSIGHTS_URL_PLACEHOLDER "t" .timeout
      = ([insightsConfigErrorMsg, err_decisions, err_actions, err_sentiment], 0)
    ∧ get_all_insights_from_modal "http://a" "t" .timeout
      = ([insightsConfigErrorMsg, err_decisions, err_actions, err_sentiment], 0)
    ∧ ask_question_on_transcript QNA_URL_PLACEHOLDER "t" "q" .timeout
      = (qnaConfigErrorMsg, 0)
    ∧ ask_question_on_transcript "http://a" "t" "q" .timeout
      = (qnaConfigErrorMsg, 0)
    ∧ insightsConfigErrorMsg ≠ "Error processing insights: " ++ timeoutExcStr 300 :=
  ⟨C6_config_check_short_circuits.1 INSIGHTS_URL_PLACEHOLDER (Or.inl rfl) "t" .timeout,
   C6_config_check_short_circuits.1 "http://a" (Or.inr (by decide)) "t" .timeout,
   C6_config_check_short_circuits.2.1 QNA_URL_PLACEHOLDER (Or.inl rfl) "t" "q" .timeout,
   C6_config_check_short_circuits.2.1 "http://a" (Or.inr (by decide)) "t" "q" .timeout,
   C6_config_check_short_circuits.2.2.1 (timeoutExcStr 300)⟩

/-- C7: each failure kind of the taxonomy yields its own message in the
first slot with the fixed "Could not retrieve X" placeholders in the
other three: the timeout message is fixed, the HTTP-error message for a
500 reply starts with the status code 500 and does not depend on the
(non-JSON) body, the JSON-decode and null-JSON messages are fixed, and
the four messages are pairwise distinct. -/
theorem C7_failure_taxonomy (t : String) (ht : isBlank t = false) :
    get_all_insights_from_modal MODAL_INSIGHTS_ENDPOINT_URL t .timeout
      = (["Error processing insights: " ++ timeoutExcStr INSIGHTS_TIMEOUT_SECONDS,
          err_decisions, err_actions, err_sentiment], 1)
    ∧ (∀ m, get_all_insights_from_modal MODAL_INSIGHTS_ENDPOINT_URL t (.transportErr m)
        = (["Error processing insights: " ++ m,
            err_decisions, err_actions, err_sentiment], 1))
    ∧ (∀ bodyText reason,
        get_all_insights_from_modal MODAL_INSIGHTS_ENDPOINT_URL t
            (.reply 500 reason (.notJson bodyText))
          = (["Error processing insights: "
                ++ httpErrorExcStr 500 reason MODAL_INSIGHTS_ENDPOINT_URL,
              err_decisions, err_actions, err_sentiment], 1))
    ∧ (∀ reason,
        (httpErrorExcStr 500 reason MODAL_INSIGHTS_ENDPOINT_URL).data.take 3
          = ['5', '0', '0'])
    ∧ (∀ bodyText reason,
        get_all_insights_from_modal MODAL_INSIGHTS_ENDPOINT_URL t
            (.reply 200 reason (.notJson bodyText))
          = (["Error processing insights: " ++ jsonDecodeExcStr,
              err_decisions, err_actions, err_sentiment], 1))
    ∧ (∀ reason,
        get_all_insights_from_modal MODAL_INSIGHTS_ENDPOINT_URL t
            (.reply 200 reason .jsonNull)
          = (["Error processing insights: " ++ jsonNoneExcStr,
              err_decisions, err_actions, err_sentiment], 1))
    ∧ ("Error processing insights: " ++ timeoutExcStr INSIGHTS_TIMEOUT_SECONDS
          ≠ "Error processing insights: "
              ++ httpErrorExcStr 500 "Internal Server Error" MODAL_INSIGHTS_ENDPOINT_URL
        ∧ "Error processing insights: " ++ timeoutExcStr INSIGHTS_TIMEOUT_SECONDS
          ≠ "Error processing insights: " ++ jsonDecodeExcStr
        ∧ "Error processing insights: " ++ timeoutExcStr INSIGHTS_TIMEOUT_SECONDS
          ≠ "Error processing insights: " ++ jsonNoneExcStr
        ∧ "Error processing insights: "
              ++ httpErrorExcStr 500 "Internal Server Error" MODAL_INSIGHTS_ENDPOINT_URL
          ≠ "Error processing insights: " ++ jsonDecodeExcStr
        ∧ "Error processing insights: "
              ++ httpErrorExcStr 500 "Internal Server Error" MODAL_INSIGHTS_ENDPOINT_URL
          ≠ "Error processing insights: " ++ jsonNoneExcStr
        ∧ "Error processing insights: " ++ jsonDecodeExcStr
          ≠ "Error processing insights: " ++ jsonNoneExcStr) := by
  refine ⟨?_, ?_, ?_, ?_, ?_, ?_, by decide⟩
  · unfold get_all_insights_from_modal
    rw [if_neg (by decide), if_neg (by simp [ht])]
  · intro m
    unfold get_all_insights_from_modal
    rw [if_neg (by decide), if_neg (by simp [ht])]
  · intro bodyText reason
    unfold get_all_insights_from_modal
    rw [if_neg (by decide), if_neg (by simp [ht])]
    dsimp only
    rw [if_pos (by decide)]
  · intro reason
    rfl
  · intro bodyText reason
    unfold get_all_insights_from_modal
    rw [if_neg (by decide), if_neg (by simp [ht])]
    dsimp only
    rw [if_neg (by decide)]
  · intro reason
    unfold get_all_insights_from_modal
    rw [if_neg (by decide), if_neg (by simp [ht])]
    dsimp only
    rw [if_neg (by decide)]

/-- C7 witness: the taxonomy at a concrete non-blank transcript. -/
theorem C7_failure_taxonomy_witness :
    isBlank "hello" = false
    ∧ get_all_insights_from_modal MODAL_INSIGHTS_ENDPOINT_URL "hello" .timeout
        = (["Error processing insights: " ++ timeoutExcStr INSIGHTS_TIMEOUT_SECONDS,
            err_decisions, err_actions, err_sentiment], 1)
    ∧ get_all_insights_from_modal MODAL_INSIGHTS_ENDPOINT_URL "hello"
          (.reply 500 "Internal Server Error" (.notJson "<html>oops</html>"))
        = (["Error processing insights: "
              ++ httpErrorExcStr 500 "Internal Server Error" MODAL_INSIGHTS_ENDPOINT_URL,
            err_decisions, err_actions, err_sentiment], 1)
    ∧ (httpErrorExcStr 500 "Internal Server Error" MODAL_INSIGHTS_ENDPOINT_URL).data.take 3
        = ['5', '0', '0'] :=
  ⟨by decide,
   (C7_failure_taxonomy "hello" (by decide)).1,
   (C7_failure_taxonomy "hello" (by decide)).2.2.1 "<html>oops</html>" "Internal Server Error",
   (C7_failure_taxonomy "hello" (by decide)).2.2.2.1 "Internal Server Error"⟩

/-- C10: with the text generator loaded, `process_transcript_insights`
returns a dict with all five keys; `error` is non-empty exactly when at
least one generation task raised; a failed field holds its fixed error
string while a successful field keeps the generated text. -/
theorem C10_failure_isolation (g : GenOutcomes) :
    ((process_transcript_insights true g).summary.isSome = true
      ∧ (process_transcript_insights true g).decisions.isSome = true
      ∧ (process_transcript_insights true g).actions.isSome = true
      ∧ (process_transcript_insights true g).sentiment.isSome = true
      ∧ (process_transcript_insights true g).error.isSome = true)
    ∧ ((genFailed g.summary || genFailed g.decisions
          || genFailed g.actions || genFailed g.sentiment) = false →
        (process_transcript_insights true g).error = some "")
    ∧ ((genFailed g.summary || genFailed g.decisions
          || genFailed g.actions || genFailed g.sentiment) = true →
        ∃ s, (process_transcript_insights true g).error = some s ∧ s ≠ "")
    ∧ (∀ e, g.summary = .error e →
        (process_transcript_insights true g).summary = some "Error generating summary.")
    ∧ (∀ v, g.summary = .ok v →
        (process_transcript_insights true g).summary = some v)
    ∧ (∀ e, g.decisions = .error e →
        (process_transcript_insights true g).decisions = some "Error generating decisions.")
    ∧ (∀ v, g.decisions = .ok v →
        (process_transcript_insights true g).decisions = some v)
    ∧ (∀ e, g.actions = .error e →
        (process_transcript_insights true g).actions = some "Error generating actions.")
    ∧ (∀ v, g.actions = .ok v →
        (process_transcript_insights true g).actions = some v)
    ∧ (∀ e, g.sentiment = .error e →
        (process_transcript_insights true g).sentiment = some "Error analyzing sentiment.")
    ∧ (∀ v, g.sentiment = .ok v →
        (process_transcript_insights true g).sentiment = some v) := by
  obtain ⟨gs, gd, ga, gsn⟩ := g
  cases gs <;> cases gd <;> cases ga <;> cases gsn <;>
    simp [process_transcript_insights, genFailed] <;>
    exact intercalate_cons_ne_empty _ _ _ (str_append_ne_empty_left (by decide) _)

/-- C10 witness: one failed task (decisions) among three successes. -/
theorem C10_failure_isolation_witness :
    (process_transcript_insights true ⟨.ok "S", .error "boom", .ok "A", .ok "T"⟩).summary
        = some "S"
    ∧ (process_transcript_insights true ⟨.ok "S", .error "boom", .ok "A", .ok "T"⟩).decisions
        = some "Error generating decisions."
    ∧ ∃ s, (process_transcript_insights true
          ⟨.ok "S", .error "boom", .ok "A", .ok "T"⟩).error = some s ∧ s ≠ "" := by
  obtain ⟨-, -, hfail, -, hok, hdec, -⟩ :=
    C10_failure_isolation ⟨.ok "S", .error "boom", .ok "A", .ok "T"⟩
  exact ⟨hok "S" rfl, hdec "boom" rfl, hfail (by decide)⟩
